import Mathlib

/-
Verification development for the edge-node session orchestrator
(src/edge-node/app.py).  The mutable module state (ACTIVE_SESSION,
SCANNER_STATE, the threading.Event objects and the uuid source) is embedded
as one record `Kiosk`; every gateway handler and registry routine of the
session path is translated into a pure state-transition function.  Times are
natural numbers (seconds), uuid tokens are allocated from a counter,
threading.Event objects live in an indexed store `events` so that a set
cancel flag stays observable after the session slot is wiped, and opaque
payloads (fingerprint artifacts, preview frames, stored status dicts) are
natural numbers.
-/

/-- Value of the dynamically typed `session_id` variable in
`handle_start_scan_session` (app.py line 625).  `create_session` ends with
`return session_id, stop_event` (line 157), a 2-tuple, while the stored
registry field is the bare uuid string; both shapes occur, so the embedded
value type distinguishes them.  The event half of the pair is the index of
the threading.Event in the event store. -/
inductive SessIdVal where
  | tok (n : Nat)
  | withEvent (n e : Nat)
deriving DecidableEq

/-- SCANNER_STATE (app.py lines 81-89): fallback-poller snapshot. -/
structure ScannerState where
  scan_id : Option SessIdVal
  finger_name : Option String
  status : String
  hint : String
  metrics : List (String × Nat)
  last_preview_frame_b64 : Option Nat
  timestamp : Nat
deriving DecidableEq

/-- ACTIVE_SESSION (app.py lines 92-108) plus the extra dict keys the code
creates at run time: `created_at` / `last_activity_time` (create_session),
and the stray keys `status` / `end_time` / `error` written by run_session
and handle_cancel_scan_session, which are distinct from the declared
`state` field and absent from the initial dict (modelled as Option,
`none` = key absent). -/
structure SessionSlot where
  session_id : Option Nat
  participant_id : Option String
  socket_sid : Option Nat
  finger_queue : List String
  current_index : Nat
  captured_fingers : List (String × Nat)
  device_handle : Option Nat
  sdk_initialized : Bool
  stop_event : Option Nat
  thread : Bool
  state : String
  status_key : Option String
  end_time : Option Nat
  error_key : Option String
  last_status : Option Nat
  last_preview_frame : Option Nat
  grace_period_active : Bool
  disconnected_at : Option Nat
  created_at : Option Nat
  last_activity_time : Option Nat
deriving DecidableEq

/-- The whole mutable module state of app.py, with an event store for
threading.Event objects (index = event id, value = is_set) and the uuid
allocator. -/
structure Kiosk where
  session : SessionSlot
  scanner : ScannerState
  events : List Bool
  next_uuid : Nat
deriving DecidableEq

/-- Initial SCANNER_STATE (app.py lines 81-89). -/
def scanner0 : ScannerState :=
  { scan_id := none, finger_name := none, status := "idle", hint := "",
    metrics := [], last_preview_frame_b64 := none, timestamp := 0 }

/-- Initial ACTIVE_SESSION (app.py lines 92-108); the run-time-only keys are
absent. -/
def session0 : SessionSlot :=
  { session_id := none, participant_id := none, socket_sid := none,
    finger_queue := [], current_index := 0, captured_fingers := [],
    device_handle := none, sdk_initialized := false, stop_event := none,
    thread := false, state := "idle", status_key := none, end_time := none,
    error_key := none, last_status := none, last_preview_frame := none,
    grace_period_active := false, disconnected_at := none,
    created_at := none, last_activity_time := none }

/-- State at module load. -/
def kiosk0 : Kiosk :=
  { session := session0, scanner := scanner0, events := [], next_uuid := 0 }

/-- Read a threading.Event flag from the store (false when out of range). -/
def eventsGet (k : Kiosk) (e : Nat) : Bool :=
  k.events.getD e false

/-- `if ACTIVE_SESSION[ "stop_event" ]: ACTIVE_SESSION[ "stop_event" ].set()`
(app.py lines 179-180, 336-337, 807-808). -/
def kioskSetStop (k : Kiosk) : Kiosk :=
  match k.session.stop_event with
  | some e => { k with events := k.events.set e true }
  | none => k

/-- touch_session_activity (app.py lines 234-238). -/
def touch_session_activity (now : Nat) (k : Kiosk) : Kiosk :=
  if k.session.session_id ≠ none then
    { k with session := { k.session with last_activity_time := some now } }
  else k

/-- create_session (app.py lines 115-157).  Allocates a fresh uuid token and
a fresh stop event, overwrites the session slot fields listed in the
`ACTIVE_SESSION.update` dict (lines 126-139) -- every other key, including
the stray `status` key of a previous session, is preserved -- starts the
expiration-monitor thread, and returns the pair `(session_id, stop_event)`
(line 157). -/
def create_session (sid : Nat) (pid : String) (finger_list : List String)
    (now : Nat) (k : Kiosk) : (Nat × Nat) × Kiosk :=
  let tok := k.next_uuid
  let ev := k.events.length
  ((tok, ev),
   { k with
     next_uuid := tok + 1,
     events := k.events ++ [false],
     session := { k.session with
       session_id := some tok, participant_id := some pid,
       socket_sid := some sid, finger_queue := finger_list,
       current_index := 0, captured_fingers := [], stop_event := some ev,
       state := "active", grace_period_active := false,
       disconnected_at := none, created_at := some now,
       last_activity_time := some now } })

/-- cleanup_session (app.py lines 159-230).  Early return when no session
exists; otherwise sets the stop event, clears captured fingerprints and both
preview stores, resets the session slot by the update dict of lines 198-216
(which does not contain the stray `status` / `end_time` / `error` keys, so
those survive) and resets SCANNER_STATE by the dict of lines 219-227. -/
def cleanup_session (k : Kiosk) : Kiosk :=
  match k.session.session_id with
  | none => k
  | some _ =>
    let k1 := kioskSetStop k
    { k1 with
      session := { k1.session with
        session_id := none, participant_id := none, socket_sid := none,
        finger_queue := [], current_index := 0, captured_fingers := [],
        device_handle := none, sdk_initialized := false, stop_event := none,
        thread := false, state := "idle", last_status := none,
        last_preview_frame := none, grace_period_active := false,
        disconnected_at := none, last_activity_time := none,
        created_at := none },
      scanner := {
        scan_id := none, finger_name := none, status := "idle",
        hint := "", metrics := [], last_preview_frame_b64 := none,
        timestamp := 0 } }

/-- advance_to_next_finger (app.py lines 304-322): touch activity, increment
the cursor unconditionally, return the next queued finger or none. -/
def advance_to_next_finger (now : Nat) (k : Kiosk) :
    Option String × Kiosk :=
  let k1 := touch_session_activity now k
  let idx := k1.session.current_index + 1
  let k2 := { k1 with session := { k1.session with current_index := idx } }
  if idx < k2.session.finger_queue.length then
    (some (k2.session.finger_queue.getD idx ""), k2)
  else (none, k2)

/-- Outbound realtime emissions of the session path.  `scannerStatusRaw` and
`previewFrameRaw` are the replays of the opaque stored snapshots in
handle_connect (app.py lines 401-406); metrics payloads are always the empty
dict in the session path and are omitted. -/
inductive Emit where
  | scannerStatus (session_id : Option SessIdVal) (finger_name : Option String)
      (status : String) (hint : String)
  | sessionStarted (session_id : SessIdVal) (finger_queue : List String)
      (total_fingers : Nat) (current_index : Option Nat)
  | nextFinger (session_id : Nat) (finger_name : String)
      (finger_index : Nat) (total_fingers : Nat)
  | scannerStatusRaw (payload : Nat)
  | previewFrameRaw (payload : Nat)
  | sessionCancelled (session_id : Nat) (reason : String)
  | sessionExpired (session_id : Nat) (reason : String)
deriving DecidableEq

/-- The hint field of an emitted scanner_status event. -/
def emitHint : Emit → String
  | Emit.scannerStatus _ _ _ h => h
  | _ => ""

/-- handle_connect (app.py lines 366-416).  With an active session: clear a
pending grace period, rebind the socket, and when the cursor is still inside
the queue resend session_started (no current_index key, lines 387-391),
next_finger, and the stored last_status / last_preview_frame snapshots when
present.  Without a session: emit the idle status. -/
def handle_connect (sid : Nat) (k : Kiosk) : List Emit × Kiosk :=
  match k.session.session_id with
  | some s =>
    let s1 := if k.session.grace_period_active then
        { k.session with grace_period_active := false }
      else k.session
    let s2 := { s1 with socket_sid := some sid }
    let es :=
      if s2.current_index < s2.finger_queue.length then
        [Emit.sessionStarted (SessIdVal.tok s) s2.finger_queue
           s2.finger_queue.length none,
         Emit.nextFinger s (s2.finger_queue.getD s2.current_index "")
           s2.current_index s2.finger_queue.length]
        ++ (match s2.last_status with
            | some v => [Emit.scannerStatusRaw v]
            | none => [])
        ++ (match s2.last_preview_frame with
            | some v => [Emit.previewFrameRaw v]
            | none => [])
      else []
    (es, { k with session := s2 })
  | none => ([Emit.scannerStatus none none "idle" ""], k)

/-- handle_disconnect (app.py lines 417-431): when the disconnecting socket
is the bound one of an active session, mark the grace period and record the
disconnect time (the 30 second grace timer thread is started; its body is
`grace_period_cleanup`). -/
def handle_disconnect (sid : Nat) (now : Nat) (k : Kiosk) : Kiosk :=
  if k.session.session_id ≠ none ∧ k.session.socket_sid = some sid then
    { k with session := { k.session with
        grace_period_active := true, disconnected_at := some now } }
  else k

/-- Outcome of a background body that may never return: `state` is the
module state at the point the thread finished or blocked forever. -/
inductive GraceResult where
  | finished (k : Kiosk)
  | blocked (k : Kiosk)
deriving DecidableEq

/-- The module state carried by a GraceResult. -/
def GraceResult.state : GraceResult → Kiosk
  | GraceResult.finished k => k
  | GraceResult.blocked k => k

/-- Whether the body deadlocked. -/
def GraceResult.isBlocked : GraceResult → Bool
  | GraceResult.blocked _ => true
  | GraceResult.finished _ => false

/-- Acquiring a Python threading.Lock that is already held by the same
thread blocks forever (threading.Lock is not reentrant). -/
def lockAcquire (held : Bool) : Option Unit :=
  if held then none else some ()

/-- grace_period_cleanup after its 30 second sleep (app.py lines 324-340),
evaluated at wake-up time `now`.  The whole body runs inside
`with state_lock`; when the grace period is still pending and the elapsed
time has reached 30 seconds it sets the stop event (lines 336-337) and then
calls cleanup_session() at line 338 -- but cleanup_session begins with
`with state_lock` (line 165) while this thread still holds that
non-reentrant lock, so the call never returns: the body deadlocks with the
stop event set and the session still in place. -/
def grace_period_cleanup (now : Nat) (k : Kiosk) : GraceResult :=
  if k.session.grace_period_active then
    if 30 ≤ now - k.session.disconnected_at.getD 0 then
      let k1 := kioskSetStop k
      match lockAcquire true with
      | none => GraceResult.blocked k1
      | some _ => GraceResult.finished (cleanup_session k1)
    else GraceResult.finished k
  else GraceResult.finished k

/-- Result of one expiration-monitor loop iteration. -/
inductive TickResult where
  | stopped
  | expired (reason : String)
  | running
deriving DecidableEq

/-- One iteration of the monitor_session_expiration loop bound to session id
`bound` (app.py lines 240-288): stop when the registry holds a different
session; otherwise the absolute 1800 second lifetime is checked first
against created_at, then the 600 second inactivity window against
last_activity_time (both defaulting to `now` when the key is missing,
lines 266-267); on expiry a best-effort session_expired event carrying the
reason is emitted and cleanup_session is called outside the lock. -/
def monitor_session_tick (bound : Nat) (now : Nat) (k : Kiosk) :
    TickResult × List Emit × Kiosk :=
  if k.session.session_id ≠ some bound then (TickResult.stopped, [], k)
  else
    let created := k.session.created_at.getD now
    let last := k.session.last_activity_time.getD now
    if 1800 < now - created then
      (TickResult.expired "MAX_LIFETIME_REACHED",
       [Emit.sessionExpired bound "MAX_LIFETIME_REACHED"],
       cleanup_session k)
    else if 600 < now - last then
      (TickResult.expired "INACTIVITY_TIMEOUT",
       [Emit.sessionExpired bound "INACTIVITY_TIMEOUT"],
       cleanup_session k)
    else (TickResult.running, [], k)

/-- Payload of a start_scan_session command (app.py lines 594-595). -/
structure StartData where
  finger_names : List String
  participant_id : Option String
deriving DecidableEq

/-- The early-return checks of handle_start_scan_session (app.py lines
597-619): empty finger list first (before any lock), then -- under one
acquisition of state_lock that ends before the session is created -- the
already-active check.  `some es` means reply with `es` and return, `none`
means proceed. -/
def start_reject (d : StartData) (k : Kiosk) : Option (List Emit) :=
  if d.finger_names = [] then
    some [Emit.scannerStatus none none "error" "No fingers specified"]
  else
    match k.session.session_id with
    | some a => some [Emit.scannerStatus (some (SessIdVal.tok a)) none
        "error" "Another scan session is already in progress"]
    | none => none

/-- The creation half of handle_start_scan_session (app.py lines 621-754):
calls create_session and binds its whole return value -- the pair
`(session_id, stop_event)` -- to the local variable `session_id` (line 625),
stores the thread, and acknowledges session_started whose session_id field
is that pair (lines 748-753). -/
def start_proceed (sid : Nat) (d : StartData) (now : Nat) (k : Kiosk) :
    List Emit × Kiosk :=
  let r := create_session sid (d.participant_id.getD "unknown")
      d.finger_names now k
  let k1 := { r.2 with session := { r.2.session with thread := true } }
  ([Emit.sessionStarted (SessIdVal.withEvent r.1.1 r.1.2) d.finger_names
      d.finger_names.length (some 0)], k1)

/-- handle_start_scan_session (app.py lines 582-754). -/
def handle_start_scan_session (sid : Nat) (d : StartData) (now : Nat)
    (k : Kiosk) : List Emit × Kiosk :=
  match start_reject d k with
  | some es => (es, k)
  | none => start_proceed sid d now k

/-- The body of handle_cancel_scan_session for a matching (or omitted)
session id (app.py lines 804-837): signal the stop event, write the stray
`status` dict key to cancelled and `end_time` (lines 812-813; the declared
`state` field is not touched), emit the cancellation acknowledgment and the
cancelled status, and schedule the delayed cleanup thread (the returned
Bool). -/
def cancel_body (a : Nat) (now : Nat) (k : Kiosk) :
    List Emit × Bool × Kiosk :=
  let k1 := kioskSetStop k
  let k2 := { k1 with session := { k1.session with
      status_key := some "cancelled", end_time := some now } }
  ([Emit.sessionCancelled a "User requested cancellation",
    Emit.scannerStatus (some (SessIdVal.tok a)) none "cancelled"
      "Session cancelled by user"], true, k2)

/-- handle_cancel_scan_session (app.py lines 768-837).  No active session:
idle reply.  A supplied id that is present and different from the active
one: Session ID mismatch error, no mutation.  Otherwise the cancel body
runs.  The middle Bool of the result records whether the delayed cleanup
thread was scheduled. -/
def handle_cancel_scan_session (provided : Option Nat) (now : Nat)
    (k : Kiosk) : List Emit × Bool × Kiosk :=
  match k.session.session_id with
  | none => ([Emit.scannerStatus none none "idle"
      "No active session to cancel"], false, k)
  | some a =>
    match provided with
    | some p =>
      if p ≠ a then
        ([Emit.scannerStatus (some (SessIdVal.tok a)) none "error"
            "Session ID mismatch"], false, k)
      else cancel_body a now k
    | none => cancel_body a now k

/-- The delayed_cleanup bodies of run_session (app.py lines 711-713, sleep 5
then cleanup_session) and handle_cancel_scan_session (lines 832-834, sleep 2
then cleanup_session): after the sleep they call cleanup_session on whatever
session is then current, with no re-check of the session id. -/
def delayed_cleanup (k : Kiosk) : Kiosk :=
  cleanup_session k

/-- Python `==` between the stored ACTIVE_SESSION session id (a uuid string
or None) and the session thread variable of line 625 (the
`(session_id, stop_event)` tuple): None equals nothing and a str never
equals a tuple, so only a bare token can compare equal. -/
def pyEqSession (stored : Option Nat) (v : SessIdVal) : Bool :=
  match stored, v with
  | some m, SessIdVal.tok n => m == n
  | _, _ => false

/-- The result-storing block of run_session (app.py lines 697-701): under
the lock, when the stored id compares equal to the thread variable, store
the bulk results in captured_fingers and write the stray `status` key to
completed and `end_time`. -/
def thread_store_results (v : SessIdVal) (results : List (String × Nat))
    (now : Nat) (k : Kiosk) : Kiosk :=
  if pyEqSession k.session.session_id v then
    { k with session := { k.session with
        captured_fingers := results,
        status_key := some "completed", end_time := some now } }
  else k

/-- The error block of run_session (app.py lines 722-725): guarded by the
same comparison, writes the stray `status` key to error and the `error`
key. -/
def thread_error_write (v : SessIdVal) (e : String) (k : Kiosk) : Kiosk :=
  if pyEqSession k.session.session_id v then
    { k with session := { k.session with
        status_key := some "error", error_key := some e } }
  else k

/-- The preview_frame branch of the session ws_emit callback (app.py lines
669-671), which the capture loop invokes from the session thread: writes the
frame into SCANNER_STATE with no check of the current session. -/
def ws_emit_preview (frame : Nat) (now : Nat) (k : Kiosk) : Kiosk :=
  { k with scanner := { k.scanner with
      last_preview_frame_b64 := some frame, timestamp := now } }

/-- Boolean list prefix test, structural so the kernel can evaluate it. -/
def listPrefixB : List Char → List Char → Bool
  | [], _ => true
  | _ :: _, [] => false
  | a :: as, b :: bs => a == b && listPrefixB as bs

/-- Boolean list infix test, structural so the kernel can evaluate it. -/
def listInfixB (p : List Char) : List Char → Bool
  | [] => listPrefixB p []
  | b :: bs => listPrefixB p (b :: bs) || listInfixB p bs

/-- Whether the phrase `pat` occurs inside the string `s`. -/
def strHasPhrase (pat s : String) : Bool :=
  listInfixB pat.data s.data

/-- A representative start command: two fingers for participant p1. -/
def startData0 : StartData :=
  ⟨["left_thumb", "left_index"], some "p1"⟩

/-- State after one successful start (socket 1, time 0) from the initial
state: session token 0, stop event 0, both clocks 0. -/
def kioskA : Kiosk :=
  (handle_start_scan_session 1 startData0 0 kiosk0).2


/-- Reachability of a module state under the embedded operations: the
initial state, every gateway handler, the registry routines invoked by the
background units (delayed cleanups and the error path call cleanup_session
directly), one monitor iteration, the grace-timer body, the session-thread
writes (whose captured id is always the pair from line 625), and arbitrary
SCANNER_STATE writes (over-approximating the ws_emit callbacks and the
deprecated per-finger path, which never touch ACTIVE_SESSION). -/
inductive Reach : Kiosk → Prop where
  | base : Reach kiosk0
  | startStep (sid : Nat) (d : StartData) (now : Nat) (k : Kiosk) :
      Reach k → Reach (handle_start_scan_session sid d now k).2
  | cancelStep (p : Option Nat) (now : Nat) (k : Kiosk) :
      Reach k → Reach (handle_cancel_scan_session p now k).2.2
  | connectStep (sid : Nat) (k : Kiosk) :
      Reach k → Reach (handle_connect sid k).2
  | disconnectStep (sid now : Nat) (k : Kiosk) :
      Reach k → Reach (handle_disconnect sid now k)
  | cleanupStep (k : Kiosk) : Reach k → Reach (cleanup_session k)
  | tickStep (b now : Nat) (k : Kiosk) :
      Reach k → Reach (monitor_session_tick b now k).2.2
  | graceStep (now : Nat) (k : Kiosk) :
      Reach k → Reach (GraceResult.state (grace_period_cleanup now k))
  | advanceStep (now : Nat) (k : Kiosk) :
      Reach k → Reach (advance_to_next_finger now k).2
  | touchStep (now : Nat) (k : Kiosk) :
      Reach k → Reach (touch_session_activity now k)
  | resultStep (a b now : Nat) (rs : List (String × Nat)) (k : Kiosk) :
      Reach k → Reach (thread_store_results (SessIdVal.withEvent a b) rs now k)
  | errorStep (a b : Nat) (e : String) (k : Kiosk) :
      Reach k → Reach (thread_error_write (SessIdVal.withEvent a b) e k)
  | scannerStep (s : ScannerState) (k : Kiosk) :
      Reach k → Reach { k with scanner := s }

/-- The session-thread comparison of line 698 never succeeds: its left side
is a uuid string or None, its right side the tuple of line 625. -/
theorem pyEqSession_withEvent (st : Option Nat) (a b : Nat) :
    pyEqSession st (SessIdVal.withEvent a b) = false := by
  cases st <;> rfl

/-- Setting the stop event only touches the event store. -/
theorem kioskSetStop_session (k : Kiosk) :
    (kioskSetStop k).session = k.session := by
  unfold kioskSetStop
  cases k.session.stop_event <;> rfl

/-- The three snapshot fields a cleanup leaves behind. -/
def coreClear (k : Kiosk) : Prop :=
  k.session.last_status = none ∧ k.session.last_preview_frame = none ∧
    k.session.captured_fingers = []

/-- cleanup_session preserves absence of the snapshot fields. -/
theorem cleanup_preserves (k : Kiosk) (h : coreClear k) :
    coreClear (cleanup_session k) := by
  unfold cleanup_session
  split
  · exact h
  · exact ⟨rfl, rfl, rfl⟩

/-- touch_session_activity preserves absence of the snapshot fields. -/
theorem touch_preserves (now : Nat) (k : Kiosk) (h : coreClear k) :
    coreClear (touch_session_activity now k) := by
  unfold touch_session_activity
  split
  · exact ⟨h.1, h.2.1, h.2.2⟩
  · exact h

/-- In every reachable module state the stored last_status and
last_preview_frame snapshots are absent and captured_fingers is empty: no
operation of the session path ever writes them (the only assignment of
captured_fingers, run_session line 699, is guarded by the comparison of
line 698, which never succeeds). -/
theorem reach_core {k : Kiosk} (h : Reach k) : coreClear k := by
  induction h with
  | base => exact ⟨rfl, rfl, rfl⟩
  | startStep sid d now k _ ih =>
    unfold handle_start_scan_session
    split
    · exact ih
    · exact ⟨ih.1, ih.2.1, rfl⟩
  | cancelStep p now k _ ih =>
    unfold handle_cancel_scan_session
    split
    · exact ih
    · split
      · split
        · exact ih
        · simp only [cancel_body]
          refine ⟨?_, ?_, ?_⟩ <;>
            simp [kioskSetStop_session, ih.1, ih.2.1, ih.2.2]
      · simp only [cancel_body]
        refine ⟨?_, ?_, ?_⟩ <;>
          simp [kioskSetStop_session, ih.1, ih.2.1, ih.2.2]
  | connectStep sid k _ ih =>
    unfold handle_connect
    split
    · dsimp only
      split <;> exact ⟨ih.1, ih.2.1, ih.2.2⟩
    · exact ih
  | disconnectStep sid now k _ ih =>
    unfold handle_disconnect
    split
    · exact ⟨ih.1, ih.2.1, ih.2.2⟩
    · exact ih
  | cleanupStep k _ ih => exact cleanup_preserves k ih
  | tickStep b now k _ ih =>
    unfold monitor_session_tick
    split
    · exact ih
    · dsimp only
      split
      · exact cleanup_preserves k ih
      · split
        · exact cleanup_preserves k ih
        · exact ih
  | graceStep now k _ ih =>
    unfold grace_period_cleanup
    split
    · split
      · refine ⟨?_, ?_, ?_⟩ <;>
          simp [lockAcquire, GraceResult.state, kioskSetStop_session,
            ih.1, ih.2.1, ih.2.2]
      · exact ih
    · exact ih
  | advanceStep now k _ ih =>
    unfold advance_to_next_finger
    have h2 := touch_preserves now k ih
    dsimp only
    split
    · exact ⟨h2.1, h2.2.1, h2.2.2⟩
    · exact ⟨h2.1, h2.2.1, h2.2.2⟩
  | touchStep now k _ ih => exact touch_preserves now k ih
  | resultStep a b now rs k _ ih =>
    unfold thread_store_results
    simp only [pyEqSession_withEvent, Bool.false_eq_true, if_false]
    exact ih
  | errorStep a b e k _ ih =>
    unfold thread_error_write
    simp only [pyEqSession_withEvent, Bool.false_eq_true, if_false]
    exact ih
  | scannerStep s k _ ih => exact ih

/-- C10: a start command whose finger-name list is empty is rejected before
any lock is taken with an error status whose hint is No fingers specified;
no session is created and the whole module state is unchanged (app.py lines
597-606). -/
theorem c10_empty_start_rejected (sid now : Nat) (d : StartData) (k : Kiosk)
    (h : d.finger_names = []) :
    handle_start_scan_session sid d now k =
      ([Emit.scannerStatus none none "error" "No fingers specified"], k) := by
  unfold handle_start_scan_session start_reject
  simp [h]

/-- Witness for c10_empty_start_rejected at a concrete active state. -/
theorem c10_witness :
    handle_start_scan_session 3 ⟨[], some "p9"⟩ 4 kioskA =
      ([Emit.scannerStatus none none "error" "No fingers specified"],
       kioskA) :=
  c10_empty_start_rejected 3 4 ⟨[], some "p9"⟩ kioskA rfl

/-- C3 counterexample: a start command with an empty finger list that
arrives while a session is active is answered with the hint No fingers
specified (the empty-list check of line 597 runs before the already-active
check of line 610), so its reply does not carry an already in progress
hint, contrary to the claim quantifying over every start command arriving
while a session is active. -/
theorem c3_counterexample :
    kioskA.session.session_id = some 0 ∧
    (handle_start_scan_session 2 ⟨[], some "p2"⟩ 5 kioskA).1 =
      [Emit.scannerStatus none none "error" "No fingers specified"] ∧
    (handle_start_scan_session 2 ⟨[], some "p2"⟩ 5 kioskA).1.any
      (fun e => strHasPhrase "already in progress" (emitHint e)) = false := by
  decide

/-- C3 (amended): a start command with a nonempty finger list that arrives
while a session is active is answered with an error status whose hint is
Another scan session is already in progress (which carries the phrase
already in progress), and the module state -- hence every field of the
existing session -- is unchanged, so no such start succeeds; a start with an
empty list arriving while a session is active is instead rejected earlier
with No fingers specified, likewise without mutation. -/
theorem c3_start_while_active (sid : Nat) (d : StartData) (now a : Nat)
    (k : Kiosk) (ha : k.session.session_id = some a) :
    (d.finger_names ≠ [] →
      handle_start_scan_session sid d now k =
        ([Emit.scannerStatus (some (SessIdVal.tok a)) none "error"
            "Another scan session is already in progress"], k) ∧
      strHasPhrase "already in progress"
        "Another scan session is already in progress" = true) ∧
    (d.finger_names = [] →
      handle_start_scan_session sid d now k =
        ([Emit.scannerStatus none none "error" "No fingers specified"], k)) := by
  constructor
  · intro hne
    constructor
    · unfold handle_start_scan_session start_reject
      simp [hne, ha]
    · decide
  · intro he
    unfold handle_start_scan_session start_reject
    simp [he]

/-- Witness for c3_start_while_active on the concrete active state. -/
theorem c3_witness :
    handle_start_scan_session 2 ⟨["right_thumb"], some "p2"⟩ 5 kioskA =
      ([Emit.scannerStatus (some (SessIdVal.tok 0)) none "error"
          "Another scan session is already in progress"], kioskA) :=
  ((c3_start_while_active 2 ⟨["right_thumb"], some "p2"⟩ 5 0 kioskA
      (by decide)).1 (by decide)).1

/-- C4: the registry create operation does not return the bare session id:
create_session returns the pair (session_id, stop_event) (app.py line 157),
handle_start_scan_session binds the whole pair to its session_id variable
(line 625), and the session_started acknowledgment therefore carries that
pair as its session_id field (lines 748-753), not the opaque token stored in
the registry -- while finger_queue, total and current_index 0 are correct. -/
theorem c4_ack_session_id_is_pair :
    (create_session 1 "p1" ["left_thumb", "left_index"] 0 kiosk0).1 =
      (0, 0) ∧
    (handle_start_scan_session 1 startData0 0 kiosk0).1 =
      [Emit.sessionStarted (SessIdVal.withEvent 0 0)
        ["left_thumb", "left_index"] 2 (some 0)] ∧
    kioskA.session.session_id = some 0 ∧
    SessIdVal.withEvent 0 0 ≠ SessIdVal.tok 0 := by
  decide

/-- C5: cancelling with a mismatched id replies Session ID mismatch and
mutates nothing, and cancelling with the matching id sets the stop event,
emits the cancellation acknowledgment and schedules the delayed teardown --
but the state field of the session stays active: the handler writes the
stray dictionary key status (app.py line 812), not the declared state
field, so state never becomes cancelled. -/
theorem c5_cancel_writes_status_not_state :
    handle_cancel_scan_session (some 99) 9 kioskA =
      ([Emit.scannerStatus (some (SessIdVal.tok 0)) none "error"
          "Session ID mismatch"], false, kioskA) ∧
    eventsGet (handle_cancel_scan_session (some 0) 9 kioskA).2.2 0 = true ∧
    (handle_cancel_scan_session (some 0) 9 kioskA).2.1 = true ∧
    Emit.sessionCancelled 0 "User requested cancellation" ∈
      (handle_cancel_scan_session (some 0) 9 kioskA).1 ∧
    (handle_cancel_scan_session (some 0) 9 kioskA).2.2.session.status_key =
      some "cancelled" ∧
    (handle_cancel_scan_session (some 0) 9 kioskA).2.2.session.state =
      "active" := by
  decide

/-- State after start and one advance: Active with the cursor at 1. -/
def kioskAdv : Kiosk :=
  (advance_to_next_finger 1 kioskA).2

/-- Modelled from the spec: reachability under the capture-loop driver
discipline of spec sections 4.2 and 4.4 (the driver, scan_finger_session, is
called at app.py line 687 but is absent from src; per the spec it invokes
advance_to_next_finger once per successful step and stops when the queue is
exhausted, so an advance happens only while a current finger exists).  All
other steps are the operations of Reach, unrestricted. -/
inductive ReachD : Kiosk → Prop where
  | base : ReachD kiosk0
  | startStep (sid : Nat) (d : StartData) (now : Nat) (k : Kiosk) :
      ReachD k → ReachD (handle_start_scan_session sid d now k).2
  | cancelStep (p : Option Nat) (now : Nat) (k : Kiosk) :
      ReachD k → ReachD (handle_cancel_scan_session p now k).2.2
  | connectStep (sid : Nat) (k : Kiosk) :
      ReachD k → ReachD (handle_connect sid k).2
  | disconnectStep (sid now : Nat) (k : Kiosk) :
      ReachD k → ReachD (handle_disconnect sid now k)
  | cleanupStep (k : Kiosk) : ReachD k → ReachD (cleanup_session k)
  | tickStep (b now : Nat) (k : Kiosk) :
      ReachD k → ReachD (monitor_session_tick b now k).2.2
  | graceStep (now : Nat) (k : Kiosk) :
      ReachD k → ReachD (GraceResult.state (grace_period_cleanup now k))
  | advanceStep (now : Nat) (k : Kiosk) :
      ReachD k →
      k.session.current_index < k.session.finger_queue.length →
      ReachD (advance_to_next_finger now k).2
  | touchStep (now : Nat) (k : Kiosk) :
      ReachD k → ReachD (touch_session_activity now k)
  | resultStep (a b now : Nat) (rs : List (String × Nat)) (k : Kiosk) :
      ReachD k →
      ReachD (thread_store_results (SessIdVal.withEvent a b) rs now k)
  | errorStep (a b : Nat) (e : String) (k : Kiosk) :
      ReachD k → ReachD (thread_error_write (SessIdVal.withEvent a b) e k)
  | scannerStep (s : ScannerState) (k : Kiosk) :
      ReachD k → ReachD { k with scanner := s }

/-- Every driver-disciplined trace is a trace of the unrestricted system. -/
theorem reachD_reach {k : Kiosk} (h : ReachD k) : Reach k := by
  induction h with
  | base => exact Reach.base
  | startStep sid d now k _ ih => exact Reach.startStep sid d now k ih
  | cancelStep p now k _ ih => exact Reach.cancelStep p now k ih
  | connectStep sid k _ ih => exact Reach.connectStep sid k ih
  | disconnectStep sid now k _ ih => exact Reach.disconnectStep sid now k ih
  | cleanupStep k _ ih => exact Reach.cleanupStep k ih
  | tickStep b now k _ ih => exact Reach.tickStep b now k ih
  | graceStep now k _ ih => exact Reach.graceStep now k ih
  | advanceStep now k _ _ ih => exact Reach.advanceStep now k ih
  | touchStep now k _ ih => exact Reach.touchStep now k ih
  | resultStep a b now rs k _ ih => exact Reach.resultStep a b now rs k ih
  | errorStep a b e k _ ih => exact Reach.errorStep a b e k ih
  | scannerStep s k _ ih => exact Reach.scannerStep s k ih

/-- cleanup_session keeps the cursor within the queue bound. -/
theorem cleanup_bound (k : Kiosk)
    (h : k.session.current_index ≤ k.session.finger_queue.length) :
    (cleanup_session k).session.current_index ≤
      (cleanup_session k).session.finger_queue.length := by
  unfold cleanup_session
  split
  · exact h
  · exact Nat.le_refl 0

/-- touch_session_activity changes neither the cursor nor the queue. -/
theorem touch_session_idx (now : Nat) (k : Kiosk) :
    (touch_session_activity now k).session.current_index =
        k.session.current_index ∧
      (touch_session_activity now k).session.finger_queue =
        k.session.finger_queue := by
  unfold touch_session_activity
  split
  · exact ⟨rfl, rfl⟩
  · exact ⟨rfl, rfl⟩

/-- Under the driver discipline the cursor never leaves the interval from 0
to the queue length: creation and teardown reset it to 0 and each advance
happens below the bound. -/
theorem reachD_bound {k : Kiosk} (h : ReachD k) :
    k.session.current_index ≤ k.session.finger_queue.length := by
  induction h with
  | base => exact Nat.le_refl 0
  | startStep sid d now k _ ih =>
    unfold handle_start_scan_session
    split
    · exact ih
    · exact Nat.zero_le _
  | cancelStep p now k _ ih =>
    unfold handle_cancel_scan_session
    split
    · exact ih
    · split
      · split
        · exact ih
        · simp [cancel_body, kioskSetStop_session, ih]
      · simp [cancel_body, kioskSetStop_session, ih]
  | connectStep sid k _ ih =>
    unfold handle_connect
    split
    · dsimp only
      split <;> exact ih
    · exact ih
  | disconnectStep sid now k _ ih =>
    unfold handle_disconnect
    split
    · exact ih
    · exact ih
  | cleanupStep k _ ih => exact cleanup_bound k ih
  | tickStep b now k _ ih =>
    unfold monitor_session_tick
    split
    · exact ih
    · dsimp only
      split
      · exact cleanup_bound k ih
      · split
        · exact cleanup_bound k ih
        · exact ih
  | graceStep now k _ ih =>
    unfold grace_period_cleanup
    split
    · split
      · simp [lockAcquire, GraceResult.state, kioskSetStop_session, ih]
      · exact ih
    · exact ih
  | advanceStep now k _ hlt ih =>
    unfold advance_to_next_finger
    dsimp only
    have ht := touch_session_idx now k
    split <;> (dsimp only; rw [ht.1, ht.2]; omega)
  | touchStep now k _ ih =>
    have ht := touch_session_idx now k
    rw [ht.1, ht.2]
    exact ih
  | resultStep a b now rs k _ ih =>
    unfold thread_store_results
    simp only [pyEqSession_withEvent, Bool.false_eq_true, if_false]
    exact ih
  | errorStep a b e k _ ih =>
    unfold thread_error_write
    simp only [pyEqSession_withEvent, Bool.false_eq_true, if_false]
    exact ih
  | scannerStep s k _ ih => exact ih

/-- C1 counterexample: under the driver discipline of the spec, the state
reached by a start followed by one advance_to_next_finger (legitimate: the
cursor was 0 on a queue of length 2) is Active with current_index 1 still
inside the claimed bound, while captured_fingers is empty -- so of the two
claimed conjuncts exactly the equality between the number of captured
entries and the cursor fails at an observable instant between registry
operations: capture results are only bulk-assigned after the whole loop ends
(app.py line 699), never per step. -/
theorem c1_counterexample :
    ReachD kioskAdv ∧
    kioskAdv.session.state = "active" ∧
    kioskAdv.session.current_index ≤
      kioskAdv.session.finger_queue.length ∧
    kioskAdv.session.captured_fingers.length ≠
      kioskAdv.session.current_index :=
  ⟨ReachD.advanceStep 1 kioskA
      (ReachD.startStep 1 startData0 0 kiosk0 ReachD.base) (by decide),
   by decide, by decide, by decide⟩

/-- C1 (amended): at every observable instant between registry operations,
under the driver discipline of the spec (advance invoked once per successful
step, only while a current finger exists), currentIndex lies in
[0, |fingerQueue|]; but while the session state is Active the
captured_fingers mapping is empty -- its only write (run_session line 699)
is guarded by the identity comparison of line 698, which never succeeds --
so the claimed equality between the number of captured entries and
current_index holds exactly when current_index is 0. -/
theorem c1_active_invariant {k : Kiosk} (h : ReachD k) :
    0 ≤ k.session.current_index ∧
    k.session.current_index ≤ k.session.finger_queue.length ∧
    (k.session.state = "active" →
      k.session.captured_fingers = [] ∧
      (k.session.captured_fingers.length = k.session.current_index ↔
        k.session.current_index = 0)) := by
  refine ⟨Nat.zero_le _, reachD_bound h, fun _ => ?_⟩
  have hc := (reach_core (reachD_reach h)).2.2
  refine ⟨hc, ?_⟩
  rw [hc]
  simp [eq_comm]

/-- Witness for c1_active_invariant at the mid-session state kioskAdv. -/
theorem c1_witness :
    kioskAdv.session.current_index ≤
      kioskAdv.session.finger_queue.length ∧
    kioskAdv.session.captured_fingers = [] :=
  have hr : ReachD kioskAdv :=
    ReachD.advanceStep 1 kioskA
      (ReachD.startStep 1 startData0 0 kiosk0 ReachD.base) (by decide)
  ⟨(c1_active_invariant hr).2.1,
   ((c1_active_invariant hr).2.2 (by decide)).1⟩

/-- State reached by: start, preview emitted, cancel-path teardown, then one
more preview emitted by the still-running capture loop (cooperative
cancellation means the loop may call the ws_emit callback of app.py lines
650-671 after cleanup_session has run; the callback stores the frame into
SCANNER_STATE with no session check). -/
def kioskStale : Kiosk :=
  ws_emit_preview 100 7 (cleanup_session (ws_emit_preview 99 3 kioskA))

/-- C2 counterexample: in the reachable state kioskStale no session exists
but the fallback poller still holds a preview frame; calling cleanup_session
there does not fail but returns at once (app.py lines 166-169) without
clearing SCANNER_STATE, so after that call the fallback poller preview frame
is not cleared, contrary to the claim. -/
theorem c2_counterexample :
    kioskStale.session.session_id = none ∧
    cleanup_session kioskStale = kioskStale ∧
    (cleanup_session kioskStale).scanner.last_preview_frame_b64 =
      some 100 := by
  decide

/-- C2 (amended): cleanup_session never fails and is idempotent -- a second
call is the identity -- and a call that finds an active session leaves the
registry Idle with captured_fingers empty and both preview stores cleared;
a call that finds no session returns immediately without touching anything,
in particular without clearing a fallback-poller preview frame written after
teardown. -/
theorem c2_cleanup_idempotent (k : Kiosk) :
    cleanup_session (cleanup_session k) = cleanup_session k ∧
    (k.session.session_id = none → cleanup_session k = k) ∧
    (k.session.session_id ≠ none →
      (cleanup_session k).session.session_id = none ∧
      (cleanup_session k).session.state = "idle" ∧
      (cleanup_session k).session.captured_fingers = [] ∧
      (cleanup_session k).session.last_preview_frame = none ∧
      (cleanup_session k).scanner.last_preview_frame_b64 = none) := by
  have hnone : ∀ q : Kiosk, q.session.session_id = none →
      cleanup_session q = q := by
    intro q hq
    unfold cleanup_session
    rw [hq]
  cases hs : k.session.session_id with
  | none =>
    refine ⟨?_, fun _ => hnone k hs, fun hne => absurd rfl hne⟩
    rw [hnone k hs, hnone k hs]
  | some a =>
    have hpost : (cleanup_session k).session.session_id = none ∧
        (cleanup_session k).session.state = "idle" ∧
        (cleanup_session k).session.captured_fingers = [] ∧
        (cleanup_session k).session.last_preview_frame = none ∧
        (cleanup_session k).scanner.last_preview_frame_b64 = none := by
      unfold cleanup_session
      rw [hs]
      exact ⟨rfl, rfl, rfl, rfl, rfl⟩
    refine ⟨hnone _ hpost.1, ?_, fun _ => hpost⟩
    intro h0
    exact absurd h0 (by simp)

/-- Witness for c2_cleanup_idempotent at the concrete active state. -/
theorem c2_witness :
    cleanup_session (cleanup_session kioskA) = cleanup_session kioskA ∧
    (cleanup_session kioskA).session.state = "idle" ∧
    (cleanup_session kioskA).scanner.last_preview_frame_b64 = none :=
  ⟨(c2_cleanup_idempotent kioskA).1,
   ((c2_cleanup_idempotent kioskA).2.2 (by decide)).2.1,
   ((c2_cleanup_idempotent kioskA).2.2 (by decide)).2.2.2.2⟩

/-- C6: on a monitor iteration for its bound session, exceeding the 1800
second absolute lifetime expires the session with reason
MAX_LIFETIME_REACHED regardless of last_activity_time (it is checked first,
app.py lines 270-272); otherwise exceeding the 600 second inactivity window
expires it with reason INACTIVITY_TIMEOUT; in either case a session_expired
event carrying that reason is emitted and cleanup_session is called. -/
theorem c6_monitor_tick_expiry (bound now c l : Nat) (k : Kiosk)
    (hs : k.session.session_id = some bound)
    (hc : k.session.created_at = some c)
    (hl : k.session.last_activity_time = some l) :
    (1800 < now - c →
      monitor_session_tick bound now k =
        (TickResult.expired "MAX_LIFETIME_REACHED",
         [Emit.sessionExpired bound "MAX_LIFETIME_REACHED"],
         cleanup_session k)) ∧
    (now - c ≤ 1800 → 600 < now - l →
      monitor_session_tick bound now k =
        (TickResult.expired "INACTIVITY_TIMEOUT",
         [Emit.sessionExpired bound "INACTIVITY_TIMEOUT"],
         cleanup_session k)) := by
  unfold monitor_session_tick
  rw [hs, hc, hl]
  have hne : ¬ (some bound ≠ some bound) := by simp
  rw [if_neg hne]
  dsimp only [Option.getD]
  constructor
  · intro h1
    rw [if_pos h1]
  · intro h1 h2
    rw [if_neg (by omega), if_pos h2]

/-- Witness for c6_monitor_tick_expiry: the fresh session created at time 0
is expired at time 2000 with reason MAX_LIFETIME_REACHED. -/
theorem c6_witness :
    monitor_session_tick 0 2000 kioskA =
      (TickResult.expired "MAX_LIFETIME_REACHED",
       [Emit.sessionExpired 0 "MAX_LIFETIME_REACHED"],
       cleanup_session kioskA) :=
  (c6_monitor_tick_expiry 0 2000 0 0 kioskA (by decide) (by decide)
    (by decide)).1 (by decide)

/-- Session B created after session A was cancelled and torn down: start A,
cancel A (which schedules the delayed teardown task), the immediate teardown
of the session thread error path, then start B. -/
def kioskB : Kiosk :=
  (handle_start_scan_session 2 ⟨["right_thumb"], some "p2"⟩ 3
    (cleanup_session (handle_cancel_scan_session (some 0) 1 kioskA).2.2)).2

/-- C7 counterexample: cancelling session A schedules a delayed teardown
task (app.py lines 831-837); after A is torn down and session B becomes
active, that stale task fires and runs cleanup_session with no re-check of
the session id, destroying session B -- so this background unit does not
leave the newer session unchanged, contrary to the claim that every
background unit re-checks the registry id before mutating. -/
theorem c7_counterexample :
    (handle_cancel_scan_session (some 0) 1 kioskA).2.1 = true ∧
    kioskB.session.session_id = some 1 ∧
    kioskB.session.state = "active" ∧
    (delayed_cleanup kioskB).session.session_id = none ∧
    delayed_cleanup kioskB ≠ kioskB := by
  decide

/-- C7 (amended): the Expiration Monitor does re-check the registry id and a
stale monitor iteration performs no mutation at all, and the session-thread
writes can never touch a newer session (their guard compares the stored id
with the pair captured at line 625, which never matches); but the delayed
teardown tasks call cleanup_session without any re-check, so a stale delayed
teardown destroys whichever session is current. -/
theorem c7_stale_monitor_and_thread_safe (k : Kiosk) (bound now : Nat)
    (h : k.session.session_id ≠ some bound) :
    monitor_session_tick bound now k = (TickResult.stopped, [], k) ∧
    (∀ (a b now2 : Nat) (rs : List (String × Nat)) (e : String),
      thread_store_results (SessIdVal.withEvent a b) rs now2 k = k ∧
      thread_error_write (SessIdVal.withEvent a b) e k = k) := by
  constructor
  · unfold monitor_session_tick
    rw [if_pos h]
  · intro a b now2 rs e
    constructor <;>
      simp [thread_store_results, thread_error_write, pyEqSession_withEvent]

/-- Witness for c7_stale_monitor_and_thread_safe: a monitor bound to a stale
id leaves the active session untouched. -/
theorem c7_witness :
    monitor_session_tick 7 50 kioskA = (TickResult.stopped, [], kioskA) :=
  (c7_stale_monitor_and_thread_safe kioskA 7 50 (by decide)).1

/-- State after the bound connection of the fresh session disconnects at
time 0: grace period pending, 30 second timer running. -/
def kioskDis : Kiosk :=
  handle_disconnect 1 0 kioskA

/-- C8: when the grace timer fires with no reconnection, it does set the
stop event (cancelSignal) -- but the session is never destroyed: the timer
body holds state_lock (app.py line 331) when it calls cleanup_session at
line 338, and cleanup_session immediately re-acquires the same non-reentrant
threading.Lock (line 165), so the call blocks forever and the session slot
survives, contrary to the claim that the session is destroyed. -/
theorem c8_grace_timer_deadlocks :
    kioskDis.session.grace_period_active = true ∧
    (grace_period_cleanup 30 kioskDis).isBlocked = true ∧
    eventsGet (grace_period_cleanup 30 kioskDis).state 0 = true ∧
    (grace_period_cleanup 30 kioskDis).state.session.session_id = some 0 ∧
    (grace_period_cleanup 30 kioskDis).state.session.state = "active" := by
  decide

/-- C9: a reconnection while a session is active within the grace window
leaves grace_period_active false afterwards, rebinds the socket, leaves
current_index and captured_fingers unchanged, and every stored last_status /
last_preview_frame snapshot is replayed to the newly bound connection (in
every reachable state those snapshots are absent -- no session-path code
ever writes them -- so the replay of app.py lines 401-406 is exactly the
replay of every stored snapshot). -/
theorem c9_reconnect_replay (sid : Nat) {k : Kiosk} (hr : Reach k)
    (s : Nat) (hs : k.session.session_id = some s)
    (hg : k.session.grace_period_active = true) :
    (handle_connect sid k).2.session.grace_period_active = false ∧
    (handle_connect sid k).2.session.socket_sid = some sid ∧
    (handle_connect sid k).2.session.current_index =
      k.session.current_index ∧
    (handle_connect sid k).2.session.captured_fingers =
      k.session.captured_fingers ∧
    (∀ v, k.session.last_status = some v →
      Emit.scannerStatusRaw v ∈ (handle_connect sid k).1) ∧
    (∀ v, k.session.last_preview_frame = some v →
      Emit.previewFrameRaw v ∈ (handle_connect sid k).1) := by
  have hcore := reach_core hr
  unfold handle_connect
  rw [hs]
  dsimp only
  rw [if_pos hg]
  refine ⟨rfl, rfl, rfl, rfl, ?_, ?_⟩
  · intro v hv
    rw [hcore.1] at hv
    exact absurd hv (by simp)
  · intro v hv
    rw [hcore.2.1] at hv
    exact absurd hv (by simp)

/-- Witness for c9_reconnect_replay: reconnect on socket 2 after the
disconnect of the fresh session. -/
theorem c9_witness :
    (handle_connect 2 kioskDis).2.session.grace_period_active = false ∧
    (handle_connect 2 kioskDis).2.session.current_index =
      kioskDis.session.current_index ∧
    (handle_connect 2 kioskDis).2.session.captured_fingers =
      kioskDis.session.captured_fingers :=
  have hr : Reach kioskDis :=
    Reach.disconnectStep 1 0 kioskA
      (Reach.startStep 1 startData0 0 kiosk0 Reach.base)
  have h := c9_reconnect_replay 2 hr 0 (by decide) (by decide)
  ⟨h.1, h.2.2.1, h.2.2.2.1⟩
